import Mathlib

/-!
Verification development for the VECNA cold-chain gateway firmware and its
server interface. Definitions are shallow embeddings of the C++/Arduino
source (`seeed_xiao_vecna.ino`, the unnamed firmware variant, and the code
examples of `HARDWARE_INTEGRATION_MANUAL.md`). Temperatures are modelled as
rationals, integer quantities as `Int`/`Nat`; NaN is modelled explicitly
where the source handles it.
-/

namespace Vecna

/-- Sensor status classification values (NOMINAL/WARNING/CRITICAL). -/
inductive Status where
  | NOMINAL
  | WARNING
  | CRITICAL
deriving DecidableEq, Repr

/-- Embedding of `computeStatus(float temp_c, int battery_pct)` from
`HARDWARE_INTEGRATION_MANUAL.md`:
`if (temp_c >= 10.0 || battery_pct < 10) return "CRITICAL";
 else if (temp_c >= 7.0 || battery_pct < 20) return "WARNING";
 return "NOMINAL";` -/
def computeStatus (temp_c : ℚ) (battery_pct : ℤ) : Status :=
  if temp_c ≥ 10 ∨ battery_pct < 10 then Status.CRITICAL
  else if temp_c ≥ 7 ∨ battery_pct < 20 then Status.WARNING
  else Status.NOMINAL

/-- C1: `computeStatus` returns CRITICAL iff temp_c ≥ 10.0 or battery_pct < 10;
otherwise it returns WARNING iff temp_c ≥ 7.0 or battery_pct < 20; otherwise
NOMINAL. The CRITICAL check runs before the WARNING check, so a reading
critical on temperature and warning on battery is CRITICAL. -/
theorem computeStatus_spec (t : ℚ) (b : ℤ) :
    (computeStatus t b = Status.CRITICAL ↔ (t ≥ 10 ∨ b < 10)) ∧
    (¬(t ≥ 10 ∨ b < 10) →
      (computeStatus t b = Status.WARNING ↔ (t ≥ 7 ∨ b < 20))) ∧
    (¬(t ≥ 10 ∨ b < 10) → ¬(t ≥ 7 ∨ b < 20) →
      computeStatus t b = Status.NOMINAL) ∧
    (t ≥ 10 → b ≥ 10 → b < 20 → computeStatus t b = Status.CRITICAL) := by
  unfold computeStatus
  refine ⟨?_, ?_, ?_, ?_⟩
  · constructor
    · intro h
      by_contra hc
      simp only [if_neg hc] at h
      split at h <;> simp_all
    · intro h; simp [h]
  · intro hnc
    simp only [if_neg hnc]
    constructor
    · intro h
      by_contra hw
      simp [hw] at h
    · intro h; simp [h]
  · intro hnc hnw
    simp [hnc, hnw]
  · intro ht _ _
    simp [Or.inl ht]

/-- Witness for C1 at a concrete input: temp 10 °C with battery 15 %
(critical on temperature, warning on battery) classifies CRITICAL. -/
theorem computeStatus_spec_witness :
    computeStatus 10 15 = Status.CRITICAL :=
  (computeStatus_spec 10 15).1.mpr (Or.inl (by norm_num))

/-- C2: for any battery percentage not below 20, temperature exactly 7.0 °C
classifies WARNING (not NOMINAL) and exactly 10.0 °C classifies CRITICAL
(not WARNING): both thresholds are inclusive lower bounds of their tier. -/
theorem computeStatus_boundaries (b : ℤ) (hb : 20 ≤ b) :
    computeStatus 7 b = Status.WARNING ∧
    computeStatus 10 b = Status.CRITICAL := by
  constructor
  · unfold computeStatus
    have h10 : ¬((7 : ℚ) ≥ 10 ∨ b < 10) := by
      push_neg; exact ⟨by norm_num, by omega⟩
    simp [h10]
  · exact (computeStatus_spec 10 b).1.mpr (Or.inl (by norm_num))

/-- Witness for C2 at battery 85 %. -/
theorem computeStatus_boundaries_witness :
    computeStatus 7 85 = Status.WARNING ∧
    computeStatus 10 85 = Status.CRITICAL :=
  computeStatus_boundaries 85 (by norm_num)

/-! ### Timestamps (`getISOTimestamp`, `GMT_OFFSET_SEC`)

The firmware calls `configTime(GMT_OFFSET_SEC, 0, NTP_SERVER)` with
`GMT_OFFSET_SEC = 19800` (IST), so `getLocalTime` yields the UTC instant
plus 19800 seconds. `getISOTimestamp` formats that broken-down time with
`strftime "%Y-%m-%dT%H:%M:%SZ"`. We model an instant as a count of seconds,
the `struct tm` breakdown by its day/hour/minute/second fields (the
year-month-day rendering of the day count is a bijection and does not affect
which instant the string denotes), and the instant an ISO string with a
trailing Z denotes as the UTC instant of its fields. -/

/-- `GMT_OFFSET_SEC` from the firmware configuration (IST = +5:30). -/
def GMT_OFFSET_SEC : ℕ := 19800

/-- Broken-down time as produced by `getLocalTime`/`strftime`: the day index
together with hour, minute and second within the day. -/
structure Tm where
  day : ℕ
  hour : ℕ
  minute : ℕ
  second : ℕ
deriving DecidableEq, Repr

/-- Breakdown of a seconds-count into `struct tm` fields, as `localtime`
does for the formatted fields that determine the denoted instant. -/
def secondsToTm (t : ℕ) : Tm :=
  ⟨t / 86400, t % 86400 / 3600, t % 3600 / 60, t % 60⟩

/-- The UTC instant denoted by an ISO-8601 string with trailing `Z` whose
fields are `tm`. -/
def tmToInstant (tm : Tm) : ℕ :=
  tm.day * 86400 + tm.hour * 3600 + tm.minute * 60 + tm.second

/-- Embedding of `getLocalTime` after `configTime(GMT_OFFSET_SEC, 0, ...)`:
the local broken-down time is the UTC now shifted by the configured offset. -/
def getLocalTime (utcNow : ℕ) : ℕ := utcNow + GMT_OFFSET_SEC

/-- Embedding of `getISOTimestamp()` in the NTP-synced case: format the
`getLocalTime` breakdown with `strftime "%Y-%m-%dT%H:%M:%SZ"`. -/
def getISOTimestampTm (utcNow : ℕ) : Tm :=
  secondsToTm (getLocalTime utcNow)

/-- The UTC instant that the string produced by `getISOTimestamp` denotes
via its trailing `Z`. -/
def denotedInstant (utcNow : ℕ) : ℕ :=
  tmToInstant (getISOTimestampTm utcNow)

/-- Formatting then reading back the fields is the identity on instants. -/
theorem tmToInstant_secondsToTm (t : ℕ) : tmToInstant (secondsToTm t) = t := by
  simp only [tmToInstant, secondsToTm]
  omega

/-- C3 (code bug): the instant denoted by the firmware timestamp is the UTC
production time plus 19800 seconds, never the production time itself; at
UTC instant 0 the emitted string denotes instant 19800. The integration
manual's own `getISOTimestamp` uses `gmtime_r` (true UTC), so the firmware's
`getLocalTime` with the IST offset contradicts the documented contract. -/
theorem getISOTimestamp_offset_bug :
    (∀ utcNow : ℕ, denotedInstant utcNow = utcNow + 19800) ∧
    denotedInstant 0 = 19800 ∧ (19800 : ℕ) ≠ 0 := by
  refine ⟨fun utcNow => ?_, ?_, by norm_num⟩
  · unfold denotedInstant getISOTimestampTm getLocalTime GMT_OFFSET_SEC
    exact tmToInstant_secondsToTm (utcNow + 19800)
  · rfl

/-! ### HTTP response handling (`sendTelemetry`) -/

/-- Embedding of the response handling of `sendTelemetry`: after
`int httpCode = http.POST(payload)`, the branch `if (httpCode == 201)`
increments `frameCount` and returns `true`; every other code returns
`false` and leaves `frameCount` unchanged. The result is the returned
Bool paired with the new `frameCount`. -/
def sendTelemetryOutcome (httpCode : ℤ) (frameCount : ℤ) : Bool × ℤ :=
  if httpCode = 201 then (true, frameCount + 1)
  else (false, frameCount)

/-- C7: `sendTelemetry` returns true and increments the frame counter iff
the HTTP response code is exactly 201; every other code — including other
2xx codes, 400 and 500 — yields false with the counter unchanged. -/
theorem sendTelemetry_success_iff_201 (c fc : ℤ) :
    ((sendTelemetryOutcome c fc).1 = true ∧
      (sendTelemetryOutcome c fc).2 = fc + 1 ↔ c = 201) ∧
    (c ≠ 201 → sendTelemetryOutcome c fc = (false, fc)) := by
  unfold sendTelemetryOutcome
  constructor
  · constructor
    · intro h
      by_contra hc
      simp [hc] at h
    · intro h; simp [h]
  · intro h; simp [h]

/-- Witness for C7: code 200 (a 2xx code that is not 201) fails and does
not increment, code 201 succeeds and increments. -/
theorem sendTelemetry_success_iff_201_witness :
    sendTelemetryOutcome 200 5 = (false, 5) ∧
    sendTelemetryOutcome 201 5 = (true, 6) :=
  ⟨(sendTelemetry_success_iff_201 200 5).2 (by norm_num),
   by
    have h := (sendTelemetry_success_iff_201 201 5).1.mpr rfl
    have h1 := h.1
    have h2 := h.2
    cases hs : sendTelemetryOutcome 201 5 with
    | mk a b => simp_all⟩

/-! ### Battery percentage (`readBatteryPercent`) -/

/-- Arduino `map(x, in_min, in_max, out_min, out_max)` on `long`, with C
truncating division. -/
def arduinoMap (x inMin inMax outMin outMax : ℤ) : ℤ :=
  Int.tdiv ((x - inMin) * (outMax - outMin)) (inMax - inMin) + outMin

/-- Arduino `constrain(x, a, b)`. -/
def constrain (x lo hi : ℤ) : ℤ :=
  if x < lo then lo else if x > hi then hi else x

/-- Embedding of the `USE_BATTERY_ADC` branch of `readBatteryPercent()`:
`voltage = (adcValue / 4095.0) * 3.3 * 2`, then
`percent = map(voltage * 100, 320, 420, 0, 100)` (the float argument is
truncated to `long`; it is nonnegative, so truncation is the floor), then
`constrain(percent, 0, 100)`. -/
def readBatteryPercentADC (adcValue : ℕ) : ℤ :=
  let v100 : ℚ := ((adcValue : ℚ) / 4095) * (33 / 10) * 2 * 100
  let x : ℤ := ⌊v100⌋
  constrain (arduinoMap x 320 420 0 100) 0 100

/-- Embedding of the simulated branch of `readBatteryPercent()`:
`random(75, 100)` returns some value `r` with `75 ≤ r < 100`, which is
returned unchanged. -/
def readBatteryPercentSim (r : ℤ) : ℤ := r

/-- C9: for every ADC input value the ADC branch of `readBatteryPercent`
returns an integer in 0..100 (the `constrain` clamp), and the simulated
branch returns its `random(75, 100)` draw, which lies in 0..100 as well. -/
theorem readBatteryPercent_range (adcValue : ℕ) (r : ℤ)
    (h75 : 75 ≤ r) (h100 : r < 100) :
    (0 ≤ readBatteryPercentADC adcValue ∧ readBatteryPercentADC adcValue ≤ 100) ∧
    (readBatteryPercentSim r = r ∧
      0 ≤ readBatteryPercentSim r ∧ readBatteryPercentSim r ≤ 100) := by
  refine ⟨?_, rfl, by simpa [readBatteryPercentSim] using by omega,
    by simpa [readBatteryPercentSim] using by omega⟩
  simp only [readBatteryPercentADC, constrain]
  split_ifs <;> omega

/-- Witness for C9 at ADC value 2048 and random draw 80. -/
theorem readBatteryPercent_range_witness :
    (0 ≤ readBatteryPercentADC 2048 ∧ readBatteryPercentADC 2048 ≤ 100) ∧
    (readBatteryPercentSim 80 = 80 ∧
      0 ≤ readBatteryPercentSim 80 ∧ readBatteryPercentSim 80 ≤ 100) :=
  readBatteryPercent_range 2048 80 (by norm_num) (by norm_num)

/-! ### Temperature with NaN (`readTemperature`, `lastTemperature`) -/

/-- A C `float` as far as `readTemperature` inspects it: either NaN or a
real value (modelled as a rational). -/
inductive FVal where
  | nan
  | val (q : ℚ)
deriving DecidableEq, Repr

/-- Embedding of one call to `readTemperature()` in the `USE_DHT_SENSOR`
branch: `reading` is the result of `dht.readTemperature()`; on NaN the
function returns the stored `lastTemperature` and leaves it unchanged,
otherwise it stores the reading and returns it. The result pairs the
returned value with the new `lastTemperature`. -/
def readTemperatureStep (reading : FVal) (lastTemperature : FVal) :
    FVal × FVal :=
  match reading with
  | FVal.nan => (lastTemperature, lastTemperature)
  | FVal.val t => (FVal.val t, FVal.val t)

/-- Initial value of the global `float lastTemperature = 0.0`. -/
def lastTemperatureInit : FVal := FVal.val 0

/-- A sequence of `readTemperature()` calls driven by the list of DHT
results, threading `lastTemperature`; returns the list of returned values
and the final `lastTemperature`. -/
def runTemperature : List FVal → FVal → List FVal × FVal
  | [], last => ([], last)
  | r :: rs, last =>
    let step := readTemperatureStep r last
    let rest := runTemperature rs step.2
    (step.1 :: rest.1, rest.2)

/-- Helper: if `lastTemperature` is not NaN, no output of any run is NaN
and the final `lastTemperature` is not NaN. -/
theorem runTemperature_no_nan (rs : List FVal) :
    ∀ last : FVal, last ≠ FVal.nan →
      (∀ o ∈ (runTemperature rs last).1, o ≠ FVal.nan) ∧
      (runTemperature rs last).2 ≠ FVal.nan := by
  induction rs with
  | nil => intro last h; exact ⟨by simp [runTemperature], by simpa [runTemperature]⟩
  | cons r rs ih =>
    intro last h
    cases r with
    | nan =>
      have hrec := ih last h
      refine ⟨?_, by simpa [runTemperature, readTemperatureStep] using hrec.2⟩
      intro o ho
      have ho' : o = last ∨ o ∈ (runTemperature rs last).1 := by
        simpa [runTemperature, readTemperatureStep] using ho
      rcases ho' with rfl | ho'
      · exact h
      · exact hrec.1 o ho'
    | val t =>
      have hrec := ih (FVal.val t) (by simp)
      refine ⟨?_, by simpa [runTemperature, readTemperatureStep] using hrec.2⟩
      intro o ho
      have ho' : o = FVal.val t ∨ o ∈ (runTemperature rs (FVal.val t)).1 := by
        simpa [runTemperature, readTemperatureStep] using ho
      rcases ho' with rfl | ho'
      · simp
      · exact hrec.1 o ho'

/-- C10: starting from `lastTemperature = 0.0`, `readTemperature` never
returns NaN for any sequence of DHT results — on a NaN read it falls back
to the stored value, which is initialized to 0.0 and only ever overwritten
by non-NaN readings — so every `temp_c` the firmware places in a payload is
a real number. -/
theorem readTemperature_never_nan (rs : List FVal) :
    (∀ o ∈ (runTemperature rs lastTemperatureInit).1, o ≠ FVal.nan) ∧
    (runTemperature rs lastTemperatureInit).2 ≠ FVal.nan :=
  runTemperature_no_nan rs lastTemperatureInit (by simp [lastTemperatureInit])

/-- Witness for C10 on the concrete DHT result sequence
[NaN, 5.2 °C, NaN]: the first output is the fallback 0.0, not NaN. -/
theorem readTemperature_never_nan_witness :
    (runTemperature [FVal.nan, FVal.val (26/5), FVal.nan]
        lastTemperatureInit).1.head? = some (FVal.val 0) ∧
    FVal.val 0 ≠ FVal.nan :=
  ⟨rfl,
   (readTemperature_never_nan [FVal.nan, FVal.val (26/5), FVal.nan]).1
     (FVal.val 0) (by simp [runTemperature, readTemperatureStep,
       lastTemperatureInit])⟩

/-! ### JSON payloads (`buildTelemetryPayload`) -/

/-- A JSON value, as built by ArduinoJson in the firmware. -/
inductive Json where
  | str (s : String)
  | num (q : ℚ)
  | int (n : ℤ)
  | obj (fields : List (String × Json))
  | arr (elems : List Json)
deriving Repr

/-- First value bound to a key in a JSON object; `none` when the value is
not an object or the key is absent. -/
def Json.lookup (j : Json) (k : String) : Option Json :=
  match j with
  | Json.obj fields => fields.lookup k
  | _ => none

/-- The key list of a JSON object (empty for non-objects). -/
def Json.keys (j : Json) : List String :=
  match j with
  | Json.obj fields => fields.map Prod.fst
  | _ => []

/-- `GATEWAY_ID` from the firmware configuration. -/
def GATEWAY_ID : String := "TRUCK-402"

/-- `NODE_ID` from the firmware configuration. -/
def NODE_ID : String := "CHICKEN-PKG-001"

/-- `PRODUCT_TYPE` from the firmware configuration. -/
def PRODUCT_TYPE : String := "Chicken Package"

/-- The values `buildTelemetryPayload()` reads: the trip id and timestamp
strings it computes, the GPS globals, and the results of the sensor
reads it performs inline. -/
structure TelemetryInputs where
  tripId : String
  timestamp : String
  lat : ℚ
  lng : ℚ
  speedKmh : ℚ
  headingDeg : ℤ
  satellites : ℤ
  batteryMv : ℤ
  signalDbm : ℤ
  uptimeSeconds : ℕ
  cpuTempC : ℚ
  tempC : ℚ
  batteryPct : ℤ
  linkQuality : ℤ

/-- Embedding of `buildTelemetryPayload()`: the exact JSON object the
firmware serializes, with the same keys in the same order — root fields
`gateway_id`, `trip_id`, `timestamp`, nested `location` and
`gateway_health` objects, and a `cargo_sensors` array holding the single
sensor object for `NODE_ID`. -/
def buildTelemetryPayload (i : TelemetryInputs) : Json :=
  Json.obj [
    ("gateway_id", Json.str GATEWAY_ID),
    ("trip_id", Json.str i.tripId),
    ("timestamp", Json.str i.timestamp),
    ("location", Json.obj [
      ("lat", Json.num i.lat),
      ("lng", Json.num i.lng),
      ("speed_kmh", Json.num i.speedKmh),
      ("heading_deg", Json.int i.headingDeg),
      ("satellites", Json.int i.satellites)]),
    ("gateway_health", Json.obj [
      ("battery_mv", Json.int i.batteryMv),
      ("signal_strength_dbm", Json.int i.signalDbm),
      ("uptime_seconds", Json.int (i.uptimeSeconds : ℤ)),
      ("cpu_temp_c", Json.num i.cpuTempC)]),
    ("cargo_sensors", Json.arr [
      Json.obj [
        ("node_id", Json.str NODE_ID),
        ("product_type", Json.str PRODUCT_TYPE),
        ("temp_c", Json.num i.tempC),
        ("battery_pct", Json.int i.batteryPct),
        ("link_quality", Json.int i.linkQuality)]])]

/-- Modelled from the spec: the Ingestion Service's required-field check
(the server implementation is not part of the source tree). A payload
passes iff the JSON object has the keys `gateway_id`, `trip_id` and
`timestamp`. -/
def hasRequiredFields (j : Json) : Bool :=
  (j.lookup "gateway_id").isSome && (j.lookup "trip_id").isSome &&
    (j.lookup "timestamp").isSome

/-- C6: every firmware-built payload is a JSON object carrying the three
required fields `gateway_id`, `trip_id`, `timestamp`, its `location`,
`gateway_health` and `cargo_sensors` sections use exactly the interface
field names, and it passes the ingestion service's required-field check. -/
theorem buildTelemetryPayload_wellFormed (i : TelemetryInputs) :
    (buildTelemetryPayload i).lookup "gateway_id" =
        some (Json.str GATEWAY_ID) ∧
    (buildTelemetryPayload i).lookup "trip_id" = some (Json.str i.tripId) ∧
    (buildTelemetryPayload i).lookup "timestamp" =
        some (Json.str i.timestamp) ∧
    (∃ loc, (buildTelemetryPayload i).lookup "location" = some loc ∧
      loc.keys = ["lat", "lng", "speed_kmh", "heading_deg", "satellites"]) ∧
    (∃ gh, (buildTelemetryPayload i).lookup "gateway_health" = some gh ∧
      gh.keys = ["battery_mv", "signal_strength_dbm", "uptime_seconds",
        "cpu_temp_c"]) ∧
    (∃ sensors, (buildTelemetryPayload i).lookup "cargo_sensors" =
        some (Json.arr sensors) ∧
      ∀ s ∈ sensors, s.keys = ["node_id", "product_type", "temp_c",
        "battery_pct", "link_quality"]) ∧
    hasRequiredFields (buildTelemetryPayload i) = true := by
  refine ⟨rfl, rfl, rfl, ⟨_, rfl, rfl⟩, ⟨_, rfl, rfl⟩, ⟨_, rfl, ?_⟩, rfl⟩
  intro s hs
  simp only [List.mem_singleton] at hs
  subst hs
  rfl

/-- C8: every firmware-built payload has exactly one entry in its
`cargo_sensors` array, and that entry's `node_id` is the configured
`NODE_ID` constant "CHICKEN-PKG-001". -/
theorem buildTelemetryPayload_singleSensor (i : TelemetryInputs) :
    ∃ sensors, (buildTelemetryPayload i).lookup "cargo_sensors" =
        some (Json.arr sensors) ∧
      sensors.length = 1 ∧
      ∀ s ∈ sensors, s.lookup "node_id" =
        some (Json.str "CHICKEN-PKG-001") := by
  refine ⟨_, rfl, rfl, ?_⟩
  intro s hs
  simp only [List.mem_singleton] at hs
  subst hs
  rfl

/-! ### Server-side alert lifecycle

The ingestion service and alert rule engine live in `app.py`, which is not
part of the source tree (only its documentation and callers are), so the
definitions below are modelled from the spec. The spec requires the data
store to serialize conflicting writes per alert key, so concurrent
ingestions are modelled as an arbitrary interleaving of atomic steps. -/

/-- The alert deduplication key: (trip, node-or-health-metric, alert type). -/
structure AlertKey where
  trip : String
  node : String
  alertType : String
deriving DecidableEq, Repr

instance : BEq AlertKey := ⟨fun a b => decide (a = b)⟩

/-- One SystemAlert row: its key and resolved flag. -/
structure Alert where
  key : AlertKey
  resolved : Bool
deriving DecidableEq, Repr

/-- The alert table of the data store. -/
structure ServerState where
  alerts : List Alert
deriving DecidableEq, Repr

/-- Whether an alert row is unresolved with the given key. -/
def isOpenFor (k : AlertKey) (a : Alert) : Bool :=
  a.key == k && !a.resolved

/-- Number of unresolved SystemAlert rows for a key. -/
def unresolvedCount (s : ServerState) (k : AlertKey) : ℕ :=
  (s.alerts.filter (isOpenFor k)).length

/-- Modelled from the spec: ingesting a reading that breaches a threshold
for key `k` — the Alert Rule Engine creates a SystemAlert only when no
currently-unresolved alert of the same key exists, otherwise it is a no-op
(the dedup lookup of §4.2, run inside one serialized transaction). -/
def openAlert (s : ServerState) (k : AlertKey) : ServerState :=
  if s.alerts.any (isOpenFor k) then s
  else ⟨s.alerts ++ [⟨k, false⟩]⟩

/-- Marking the alert at a list position resolved. -/
def resolveList : List Alert → ℕ → List Alert
  | [], _ => []
  | a :: rest, 0 => ⟨a.key, true⟩ :: rest
  | a :: rest, n + 1 => a :: resolveList rest n

/-- Modelled from the spec: the Query API's explicit resolve operation,
transitioning one alert row to resolved. -/
def resolveAlert (s : ServerState) (i : ℕ) : ServerState :=
  ⟨resolveList s.alerts i⟩

/-- Modelled from the spec: the auto-resolve policy — a reading returning
key `k` to NOMINAL resolves the open alerts of that key. -/
def resolveKeyNominal (s : ServerState) (k : AlertKey) : ServerState :=
  ⟨s.alerts.map (fun a => if isOpenFor k a then ⟨a.key, true⟩ else a)⟩

/-- Reachable states of the alert table: empty at start, closed under
serialized ingestion steps (breach or return-to-nominal) and explicit
resolve operations. -/
inductive Reachable : ServerState → Prop where
  | init : Reachable ⟨[]⟩
  | breach {s : ServerState} (k : AlertKey) :
      Reachable s → Reachable (openAlert s k)
  | resolve {s : ServerState} (i : ℕ) :
      Reachable s → Reachable (resolveAlert s i)
  | nominal {s : ServerState} (k : AlertKey) :
      Reachable s → Reachable (resolveKeyNominal s k)

/-- Filter-length does not grow under a map whose image never newly
satisfies the predicate. -/
theorem filter_length_map_le (p : Alert → Bool) (f : Alert → Alert)
    (hf : ∀ a, p (f a) = true → p a = true) (l : List Alert) :
    ((l.map f).filter p).length ≤ (l.filter p).length := by
  induction l with
  | nil => simp
  | cons a l ih =>
    simp only [List.map_cons, List.filter_cons]
    by_cases hfa : p (f a) = true
    · rw [if_pos hfa, if_pos (hf a hfa)]
      simpa using ih
    · rw [if_neg hfa]
      split
      · exact Nat.le_succ_of_le ih
      · exact ih

/-- Filter-length does not grow when one position is marked resolved. -/
theorem filter_length_resolveList_le (p : Alert → Bool)
    (hp : ∀ k : AlertKey, p ⟨k, true⟩ = false) :
    ∀ (l : List Alert) (i : ℕ),
      ((resolveList l i).filter p).length ≤ (l.filter p).length := by
  intro l
  induction l with
  | nil => intro i; simp [resolveList]
  | cons a l ih =>
    intro i
    cases i with
    | zero =>
      have h0 : (resolveList (a :: l) 0).filter p = l.filter p := by
        simp [resolveList, List.filter_cons, hp a.key]
      rw [h0, List.filter_cons]
      split
      · exact Nat.le_succ_of_le (Nat.le_refl _)
      · exact Nat.le_refl _
    | succ n =>
      simp only [resolveList, List.filter_cons]
      split
      · simpa using ih n
      · exact ih n

/-- If no element of a list satisfies `p`, its `p`-filter is empty. -/
theorem filter_eq_nil_of_any_false (p : Alert → Bool) (l : List Alert)
    (h : l.any p = false) : l.filter p = [] := by
  induction l with
  | nil => rfl
  | cons a l ih =>
    simp only [List.any_cons, Bool.or_eq_false_iff] at h
    simp [List.filter_cons, h.1, ih h.2]

/-- C4: at every reachable state there is at most one unresolved
SystemAlert per (trip, node, alert type) key, and a second breach of an
already-open key is a no-op on the state (no additional alert row), so
under the spec's serialized transactions no duplicate-open race exists. -/
theorem alert_dedup_invariant (s : ServerState) (hs : Reachable s) :
    (∀ k : AlertKey, unresolvedCount s k ≤ 1) ∧
    (∀ k : AlertKey, openAlert (openAlert s k) k = openAlert s k) := by
  constructor
  · induction hs with
    | init => intro k; simp [unresolvedCount]
    | breach k' s ih =>
      intro k
      unfold openAlert
      split
      · exact ih k
      · rename_i hnone
        rw [Bool.not_eq_true] at hnone
        unfold unresolvedCount at ih ⊢
        simp only [List.filter_append]
        by_cases hk : k = k'
        · subst hk
          rw [filter_eq_nil_of_any_false _ _ hnone]
          simp [isOpenFor]
        · have : List.filter (isOpenFor k) [(⟨k', false⟩ : Alert)] = [] := by
            simp [isOpenFor, BEq.beq]
            intro hkk
            exact absurd hkk.symm hk
          rw [this]
          simpa using ih k
    | resolve i s ih =>
      intro k
      refine le_trans ?_ (ih k)
      exact filter_length_resolveList_le (isOpenFor k)
        (fun k' => by simp [isOpenFor]) _ i
    | nominal k' s ih =>
      intro k
      refine le_trans (filter_length_map_le (isOpenFor k) _ ?_ _) (ih k)
      intro a ha
      split at ha
      · simp [isOpenFor] at ha
      · exact ha
  · intro k
    unfold openAlert
    split
    · rename_i hopen
      simp only [if_pos hopen]
    · rename_i hnone
      have hopen : (ServerState.mk (s.alerts ++ [⟨k, false⟩])).alerts.any
          (isOpenFor k) = true := by
        simp [isOpenFor]
      simp only [hopen, if_pos]

/-- Witness for C4: ingest the same breached key twice from the empty
state; the reachable result has exactly one unresolved row for that key
and the second ingestion changed nothing. -/
theorem alert_dedup_invariant_witness :
    unresolvedCount
      (openAlert (openAlert ⟨[]⟩ ⟨"TRIP-1", "CHICKEN-PKG-001", "TEMPERATURE"⟩)
        ⟨"TRIP-1", "CHICKEN-PKG-001", "TEMPERATURE"⟩)
      ⟨"TRIP-1", "CHICKEN-PKG-001", "TEMPERATURE"⟩ ≤ 1 :=
  (alert_dedup_invariant _
    (Reachable.breach _ (Reachable.breach _ Reachable.init))).1 _

/-! ### Server-side status derivation is independent of the device status -/

/-- One cargo sensor entry of an ingestion payload, including the untrusted
device-supplied `status` field. -/
structure SensorEntry where
  nodeId : String
  productType : String
  tempC : ℚ
  batteryPct : ℤ
  linkQuality : ℤ
  deviceStatus : Option Status
deriving DecidableEq

/-- Modelled from the spec: the server derives each stored SensorReading
status with the rule engine's thresholds, never reading the payload's
`status` field. -/
def deriveStatus (e : SensorEntry) : Status :=
  computeStatus e.tempC e.batteryPct

/-- Modelled from the spec: the alerts the rule engine raises for one
entry — severity is evaluated per alert type independently (temperature
tier and battery tier each raise their own alert when breached). -/
def sensorAlerts (e : SensorEntry) : List (String × Status) :=
  (if e.tempC ≥ 10 then [("TEMPERATURE", Status.CRITICAL)]
   else if e.tempC ≥ 7 then [("TEMPERATURE", Status.WARNING)]
   else []) ++
  (if e.batteryPct < 10 then [("BATTERY", Status.CRITICAL)]
   else if e.batteryPct < 20 then [("BATTERY", Status.WARNING)]
   else [])

/-- An entry with its untrusted device status stripped. -/
def eraseDeviceStatus (e : SensorEntry) : SensorEntry :=
  { e with deviceStatus := none }

/-- C5: two ingestion payloads that differ only in the device-supplied
status fields of their cargo sensor entries produce identical derived
statuses and identical alert sets: the stored classification is always
recomputed server-side, never taken from the payload. -/
theorem deriveStatus_ignores_deviceStatus (p q : List SensorEntry)
    (h : p.map eraseDeviceStatus = q.map eraseDeviceStatus) :
    p.map deriveStatus = q.map deriveStatus ∧
    p.map sensorAlerts = q.map sensorAlerts := by
  have hd : ∀ e : SensorEntry, deriveStatus (eraseDeviceStatus e) =
      deriveStatus e := fun e => rfl
  have ha : ∀ e : SensorEntry, sensorAlerts (eraseDeviceStatus e) =
      sensorAlerts e := fun e => rfl
  constructor
  · calc p.map deriveStatus
        = (p.map eraseDeviceStatus).map deriveStatus := by
          rw [List.map_map]; exact (List.map_congr_left fun e _ => (hd e).symm)
      _ = (q.map eraseDeviceStatus).map deriveStatus := by rw [h]
      _ = q.map deriveStatus := by
          rw [List.map_map]; exact (List.map_congr_left fun e _ => hd e)
  · calc p.map sensorAlerts
        = (p.map eraseDeviceStatus).map sensorAlerts := by
          rw [List.map_map]; exact (List.map_congr_left fun e _ => (ha e).symm)
      _ = (q.map eraseDeviceStatus).map sensorAlerts := by rw [h]
      _ = q.map sensorAlerts := by
          rw [List.map_map]; exact (List.map_congr_left fun e _ => ha e)

/-- Witness for C5: the same reading once reported as NOMINAL by the
device and once as CRITICAL yields the same derived status and alerts. -/
theorem deriveStatus_ignores_deviceStatus_witness :
    ([⟨"N1", "Poultry", 8, 85, -70, some Status.NOMINAL⟩] :
        List SensorEntry).map deriveStatus =
      ([⟨"N1", "Poultry", 8, 85, -70, some Status.CRITICAL⟩] :
        List SensorEntry).map deriveStatus ∧
    ([⟨"N1", "Poultry", 8, 85, -70, some Status.NOMINAL⟩] :
        List SensorEntry).map sensorAlerts =
      ([⟨"N1", "Poultry", 8, 85, -70, some Status.CRITICAL⟩] :
        List SensorEntry).map sensorAlerts :=
  deriveStatus_ignores_deviceStatus _ _ rfl

end Vecna
